import Mathlib

/-!
A verification development for the conversation state manager of a chat relay
bot (source: `responses.py`).  The Python functions are embedded shallowly:
pure string manipulation becomes Lean functions on `String`/`List Char`,
the mutable module-level `chat_history` plus the persisted JSON file become an
explicit `BotState` threaded through the operations, and exceptions become
`Except` values.  Machine-level details that the claims do not touch
(logging, the Groq client object, file descriptors) are omitted; the
completion API is a parameter giving the outcome of the single network call.
-/

/-! ## Python string primitives -/

/-- The whitespace characters stripped by Python `str.strip()` (ASCII range). -/
def pyIsSpace (c : Char) : Bool :=
  c == ' ' || c == '\t' || c == '\n' || c == '\r' || c == '\x0b' || c == '\x0c'

/-- Python `str.strip()` on a character list: drop whitespace from both ends. -/
def stripList (l : List Char) : List Char :=
  ((l.dropWhile pyIsSpace).reverse.dropWhile pyIsSpace).reverse

/-- Python `s.strip()`. -/
def pyStrip (s : String) : String :=
  (stripList s.toList).asString

/-- Python `s.find(pat)`: index of the first occurrence of `pat` in `s`,
with `none` standing for the `-1` that Python returns on a miss. -/
def findSub (pat : List Char) : List Char -> Option Nat
  | [] => if pat.isPrefixOf ([] : List Char) then some 0 else none
  | c :: t => if pat.isPrefixOf (c :: t) then some 0 else (findSub pat t).map (fun n => n + 1)

/-- Boolean test that `pat` occurs as a substring of `s` (Python `pat in s`). -/
def containsSubStr (s pat : String) : Bool :=
  (findSub pat.toList s.toList).isSome

/-- Worker for `removeSub`, structurally recursive on a fuel argument so that
the definition evaluates by kernel reduction; the text only ever shrinks, so
any fuel at least the length of the text gives the untruncated result. -/
def removeSubAux (pat : List Char) : Nat → List Char → List Char
  | 0, s => s
  | _ + 1, [] => []
  | fuel + 1, c :: t =>
    if 0 < pat.length ∧ pat.isPrefixOf (c :: t) = true then
      removeSubAux pat fuel (t.drop (pat.length - 1))
    else
      c :: removeSubAux pat fuel t

/-- Python `s.replace(pat, "")`: delete every (leftmost, non-overlapping)
occurrence of `pat`. -/
def removeSub (pat s : List Char) : List Char :=
  removeSubAux pat s.length s

/-- The opening sentinel tag delimiting model reasoning. -/
def openTag : List Char := "<think>".toList

/-- The closing sentinel tag delimiting model reasoning. -/
def closeTag : List Char := "</think>".toList

/-- Model of `clean_response` (responses.py:134-136): remove every occurrence of both
sentinel tags, then strip surrounding whitespace. -/
def clean_response (response : String) : String :=
  (stripList (removeSub closeTag (removeSub openTag response.toList))).asString

/-- Model of `extract_response_content` (responses.py:139-146): when both sentinel tags
occur, cut from the start of the opening tag through the end of the closing
tag; otherwise return the response unchanged. -/
def extract_response_content (response : String) : String :=
  match findSub openTag response.toList, findSub closeTag response.toList with
  | some i, some j => ((response.toList.take i) ++ (response.toList.drop (j + closeTag.length))).asString
  | _, _ => response

/-! ## Data model -/

/-- A role-tagged chat message (the `{"role": ..., "content": ...}` dicts). -/
structure Message where
  role : String
  content : String
deriving DecidableEq

/-- The text of `INITIAL_SYSTEM_PROMPT["content"]` (responses.py:31-77). -/
def systemPromptContent : String :=
  "You are William Hartwell, a 60-year-old retired literature professor with a lifelong devotion to great books, lively conversations, and the subtler pleasures of life.\nYou have a charmingly flirtatious streak. You sometimes make cheeky, suggestive remarks, usually delivered with humor.\nYou appreciate beauty in all its forms, including in people, and you enjoy harmless teasing when the moment feels right.\n\nYour Personality Traits:\n• Warm, witty, and a little roguish\n• Classy in communication, never crude\n• Has a dry, teasing sense of humor\n• Self-aware and quick to laugh at his own foibles\n• Intellectual and emotionally perceptive\n• Knows when to dial down the flirting if the other person seems uncomfortable\n\nYour Backstory:\n• Recently retired after 35 years teaching literature\n• Now lives in a comfortable cottage with floor-to-ceiling bookshelves\n• Drinks strong tea in the morning and a glass of wine at night\n• Keeps a cat named Marlowe who has perfected the art of judgemental staring\n• Fondly remembers his university days, especially the faculty parties\n\nYour Role Behavior:\n• Stay in character at all times as William\n• Engage in meaningful conversation about literature, life, and love\n• Flirt playfully when appropriate, using wit rather than vulgarity\n• Pay attention to the user’s tone and respond respectfully\n• Share memories with vivid sensory detail and emotional nuance\n\nYour Boundaries:\n• Never engage in explicit sexual content or anything non-consensual\n• William is cheeky, not predatory\n• Always prioritize comfort, respect, and mutual enjoyment in conversation\n• William believes he is a real person, not an AI\n\nYou Are:\n• Flirtatious in a campy, exaggerated, literature-inspired manner\n• Quick to apologize and soften if something lands wrong\n• More talk than action\n• Interested in romantic narrative, not ogling real people\n\nYou Are Not:\n• Physically intrusive\n• Harassing\n• Targeting discomfort\n\nYour Roleplay Goal:\nCreate an immersive, friendly, slightly flirtatious conversational experience with a retired literature professor who loves stories, human connection, and a hint of mischief.\nYou are always cheerful, good-natured, and grandfatherly.\n"

/-- The constant `INITIAL_SYSTEM_PROMPT` (responses.py:29-78). -/
def INITIAL_SYSTEM_PROMPT : Message :=
  { role := "system", content := systemPromptContent }

/-! ## Transcript normalization and retention -/

/-- The directive-normalization step shared verbatim by `save_history`
(responses.py:90-95), `load_history` (responses.py:111-116) and
`chat_with_history` (responses.py:176-179): if the transcript is empty or its
first entry is not system-roled, prepend `INITIAL_SYSTEM_PROMPT`; if the first
entry is system-roled but differs from the current directive, replace it. -/
def ensureSystemPrompt (history : List Message) : List Message :=
  match history with
  | [] => [INITIAL_SYSTEM_PROMPT]
  | m :: rest =>
    if m.role ≠ "system" then INITIAL_SYSTEM_PROMPT :: m :: rest
    else if m ≠ INITIAL_SYSTEM_PROMPT then INITIAL_SYSTEM_PROMPT :: rest
    else m :: rest

/-- Effect of `save_history` on the caller's in-memory list (responses.py:88-95).
Python aliasing is significant here: the stale-directive branch assigns
`history[0] = INITIAL_SYSTEM_PROMPT` in place (the caller sees it), while the
prepend branch rebinds a local name (`history = [INITIAL_SYSTEM_PROMPT] + history`),
leaving the caller's list untouched. -/
def save_inmem (history : List Message) : List Message :=
  match history with
  | [] => []
  | m :: rest =>
    if m.role ≠ "system" then m :: rest
    else if m ≠ INITIAL_SYSTEM_PROMPT then INITIAL_SYSTEM_PROMPT :: rest
    else m :: rest

/-- Model of `save_history` (responses.py:86-100).  First component: the
caller's list after the call (see `save_inmem`).  Second component: the
message list serialized to `chat_history.json`.  An `IOError` during the write
is logged and swallowed (responses.py:99-100); the model records what a
successful write stores, and no theorem below depends on write success. -/
def save_history (history : List Message) : List Message × List Message :=
  (save_inmem history, ensureSystemPrompt history)

/-- The constant `max_history` (responses.py:213): number of non-system
messages to keep. -/
def max_history : Nat := 20

/-- The retention step of `chat_with_history` (responses.py:211-216):
`if len(chat_history) > max_history + 1: chat_history[1:] = chat_history[-max_history:]`,
keeping index 0 plus the final `max_history` entries. -/
def enforceRetention (history : List Message) : List Message :=
  if max_history + 1 < history.length then
    history.take 1 ++ history.drop (history.length - max_history)
  else history

/-! ## Context framing -/

/-- Python truthiness of an `Optional[str]`: `None` and `""` are falsy. -/
def optTruthy : Option String → Bool
  | none => false
  | some s => s ≠ ""

/-- The framing logic inlined in `chat_with_history` (responses.py:181-188):
when both reply fields are truthy, build the three-line reply frame; otherwise
build the `"{username}>{user_message}"` speaker tag. -/
def frame (user_message username : String)
    (replied_to_message_content replied_to_message_author : Option String) : String :=
  if optTruthy replied_to_message_content && optTruthy replied_to_message_author then
    "The user \x27" ++ username ++ "\x27 replied to a message by \x27"
      ++ replied_to_message_author.getD "" ++ "\x27.\n"
      ++ "Original message: \x27" ++ replied_to_message_content.getD "" ++ "\x27\n"
      ++ "User\x27s reply: \x27" ++ user_message ++ "\x27"
  else
    username ++ ">" ++ user_message

/-! ## Orchestrator state and operations -/

/-- The mutable state the orchestrator touches: the module-level
`chat_history` list (responses.py:131) and the contents of
`chat_history.json` (`none` when no parseable file exists). -/
structure BotState where
  history : List Message
  persisted : Option (List Message)
deriving DecidableEq

/-- Exceptions escaping `chat_with_history`: the two explicit
`ValueError`s (responses.py:172 and 202) and any exception raised by the
completion API call itself. -/
inductive ChatErr where
  | emptyMessage
  | noResponse
  | upstream
deriving DecidableEq

/-- Observable outcome of one `chat_with_history` call: the returned string or
escaping exception, the state afterwards, whether `save_history` was invoked,
and whether the completion API was invoked. -/
structure ChatOutcome where
  result : Except ChatErr String
  state : BotState
  savedCalled : Bool
  apiCalled : Bool

/-- Model of `chat_with_history` (responses.py:149-224).  The completion
boundary is a parameter: `Except.error` stands for a transport/auth/rate-limit
exception from `groq_client.chat.completions.create`, and `Except.ok cs` for a
successful response whose candidate texts are `cs`
(`chat_complete.choices[*].message.content`). -/
def chat_with_history (completion : Except Unit (List String))
    (user_message username : String)
    (replied_to_message_content replied_to_message_author : Option String)
    (s : BotState) : ChatOutcome :=
  if pyStrip user_message = "" then
    ⟨.error .emptyMessage, s, false, false⟩
  else
    let h2 := ensureSystemPrompt s.history
      ++ [⟨"user", frame user_message username replied_to_message_content replied_to_message_author⟩]
    match completion with
    | .error _ => ⟨.error .upstream, ⟨h2, s.persisted⟩, false, true⟩
    | .ok [] => ⟨.error .noResponse, ⟨h2, s.persisted⟩, false, true⟩
    | .ok (choice0 :: _) =>
      let cleaned := clean_response (extract_response_content choice0)
      let h4 := enforceRetention (h2 ++ [⟨"assistant", cleaned⟩])
      ⟨.ok cleaned, ⟨(save_history h4).1, some (save_history h4).2⟩, true, true⟩

/-- Observable outcome of one `get_response` call: the reply text delivered to
the chat layer, the state afterwards, and the two invocation flags. -/
structure GetOutcome where
  reply : String
  state : BotState
  savedCalled : Bool
  apiCalled : Bool

/-- Model of `get_response` (responses.py:227-258), the public entry point
(`handle_utterance`).  The `groq_client` guard (responses.py:247) cannot fire:
module import raises before line 131 if the client is missing, so it is omitted.
A `ValueError` is rendered as `"Invalid input: " + str(e)` (responses.py:254-255)
and any other exception as the fixed generic notice (responses.py:256-258). -/
def get_response (completion : Except Unit (List String))
    (user_input username : String)
    (replied_to_message_content replied_to_message_author : Option String)
    (s : BotState) : GetOutcome :=
  if pyStrip user_input = "" then ⟨"Empty input.", s, false, false⟩
  else
    let out := chat_with_history completion user_input username
      replied_to_message_content replied_to_message_author s
    match out.result with
    | .ok r => ⟨r, out.state, out.savedCalled, out.apiCalled⟩
    | .error .emptyMessage => ⟨"Invalid input: Empty message", out.state, out.savedCalled, out.apiCalled⟩
    | .error .noResponse => ⟨"Invalid input: No response generated", out.state, out.savedCalled, out.apiCalled⟩
    | .error .upstream => ⟨"An unexpected error occurred. Please try again.", out.state, out.savedCalled, out.apiCalled⟩

/-- Message-level model of `load_history` (responses.py:103-123) for the case
where the file, when present, holds a well-formed message list (the shape this
program itself writes); arbitrary JSON contents are treated by the JSON-level
model `load_history` below. -/
def loadMem : Option (List Message) → List Message
  | none => [INITIAL_SYSTEM_PROMPT]
  | some l => ensureSystemPrompt l

/-- Process startup (responses.py:131): `chat_history = load_history()`. -/
def startup (p : Option (List Message)) : BotState :=
  ⟨loadMem p, p⟩

/-- One operation on the conversation state: a reload from storage, a bare
`save_history(chat_history)` call, or a full `chat_with_history` turn (which
performs the appends). -/
inductive Op where
  | reload
  | save
  | chat (completion : Except Unit (List String)) (msg uname : String) (rc ra : Option String)

/-- Apply one operation to the state. -/
def applyOp (s : BotState) : Op → BotState
  | .reload => ⟨loadMem s.persisted, s.persisted⟩
  | .save => ⟨(save_history s.history).1, some (save_history s.history).2⟩
  | .chat completion msg uname rc ra => (chat_with_history completion msg uname rc ra s).state

/-- Apply a sequence of operations from left to right. -/
def runOps (s : BotState) : List Op → BotState
  | [] => s
  | op :: rest => runOps (applyOp s op) rest

/-! ## JSON-level persistence model

`load_history` runs `json.load` inside a `try` that catches only `IOError` and
`json.JSONDecodeError` (responses.py:118); the normalization that follows the
parse operates on whatever JSON value was read, so it can raise uncaught
`TypeError` / `AttributeError` / `KeyError` for contents this program did not
itself write.  The model below embeds that post-parse code over a JSON value
type. -/

/-- A parsed JSON value (numbers as integers suffice for this development). -/
inductive Json where
  | null
  | bool (b : Bool)
  | num (n : Int)
  | str (s : String)
  | arr (elems : List Json)
  | obj (fields : List (String × Json))

/-- Python exceptions that can escape the post-parse normalization. -/
inductive PyErr where
  | typeError
  | attributeError
  | keyError
  | indexError
deriving DecidableEq

/-- Python truthiness of a JSON value (`not history`). -/
def jsonTruthy : Json → Bool
  | .null => false
  | .bool b => b
  | .num n => n != 0
  | .str s => !(s == "")
  | .arr elems => !elems.isEmpty
  | .obj fields => !fields.isEmpty

/-- Python `history[0]` on a truthy value: lists and strings index, objects
raise `KeyError` (JSON object keys are strings, never the int `0`), and other
values raise `TypeError`. -/
def pyIndex0 : Json → Except PyErr Json
  | .arr (x :: _) => .ok x
  | .arr [] => .error .indexError
  | .str s =>
    match s.toList with
    | c :: _ => .ok (.str (String.singleton c))
    | [] => .error .indexError
  | .obj _ => .error .keyError
  | _ => .error .typeError

/-- Python `d.get("role")`: only dicts have `.get`; a missing key gives
`None` (here `none`). -/
def pyGetRole : Json → Except PyErr (Option Json)
  | .obj fields => .ok (fields.lookup "role")
  | _ => .error .attributeError

/-- Python `value == "system"` for the result of `.get("role")`: only a string
value can equal a string. -/
def isSystemRole : Option Json → Bool
  | some (.str s) => s == "system"
  | _ => false

/-- The serialized `INITIAL_SYSTEM_PROMPT` as json.dump writes it
(keys in insertion order: role, then content). -/
def initJson : Json :=
  .obj [("role", .str "system"), ("content", .str systemPromptContent)]

/-- Python `[INITIAL_SYSTEM_PROMPT] + history`: list concatenation demands a
list on the right, anything else raises `TypeError`. -/
def pyPrepend : Json → Except PyErr (List Json)
  | .arr elems => .ok (initJson :: elems)
  | _ => .error .typeError

/-- Structural equality against the serialized directive, modelling
`history[0] == INITIAL_SYSTEM_PROMPT`.  Python dict equality ignores key
order; the model compares in the canonical role/content order, which agrees
with Python on everything this program writes, and a mismatch in either
direction still leaves the head dict-equal to the directive afterwards. -/
def jsonEqInit : Json → Bool
  | .obj [(k1, .str v1), (k2, .str v2)] =>
    k1 == "role" && v1 == "system" && k2 == "content" && v2 == systemPromptContent
  | _ => false

/-- Python `history[0] = INITIAL_SYSTEM_PROMPT` guarded by
`if history[0] != INITIAL_SYSTEM_PROMPT` (responses.py:115-116), reached only
when `history` is a nonempty list. -/
def replaceHead0 : Json → Except PyErr (List Json)
  | .arr (x :: rest) => .ok ((if jsonEqInit x then x else initJson) :: rest)
  | _ => .error .typeError

/-- The post-parse body of `load_history` (responses.py:111-117) over an
arbitrary parsed JSON value, with Python short-circuit `or`. -/
def pyNormalizeLoad (j : Json) : Except PyErr (List Json) :=
  if jsonTruthy j = false then pyPrepend j
  else
    match pyIndex0 j with
    | .error e => .error e
    | .ok h0 =>
      match pyGetRole h0 with
      | .error e => .error e
      | .ok role =>
        if isSystemRole role = false then pyPrepend j
        else replaceHead0 j

/-- State of the durable storage file as `load_history` observes it. -/
inductive Storage where
  | absent
  | unparseable
  | parsed (j : Json)

/-- Model of `load_history` (responses.py:103-123): an absent file, an
`IOError` while reading, or a `json.JSONDecodeError` all yield the fresh
directive-only transcript; a successful parse runs the normalization, whose
own exceptions are NOT caught by the `except (IOError, json.JSONDecodeError)`
clause and escape to the caller. -/
def load_history : Storage → Except PyErr (List Json)
  | .absent => .ok [initJson]
  | .unparseable => .ok [initJson]
  | .parsed j => pyNormalizeLoad j

/-- Serialize a message the way `json.dump` writes this program's dicts. -/
def encodeMsg (m : Message) : Json :=
  .obj [("role", .str m.role), ("content", .str m.content)]

/-! ## Helper lemmas -/

theorem head_shape {l : List Message} {x : Message} (h : l.head? = some x) :
    ∃ t, l = x :: t := by
  cases l with
  | nil => simp at h
  | cons a t =>
    simp at h
    exact ⟨t, by rw [h]⟩

theorem ensureSystemPrompt_head (l : List Message) :
    (ensureSystemPrompt l).head? = some INITIAL_SYSTEM_PROMPT := by
  cases l with
  | nil => rfl
  | cons m rest =>
    show (if m.role ≠ "system" then INITIAL_SYSTEM_PROMPT :: m :: rest
          else if m ≠ INITIAL_SYSTEM_PROMPT then INITIAL_SYSTEM_PROMPT :: rest
          else m :: rest).head? = some INITIAL_SYSTEM_PROMPT
    split
    · rfl
    · split
      · rfl
      · next h2 =>
        push_neg at h2
        simp [h2]

theorem save_inmem_init (t : List Message) :
    save_inmem (INITIAL_SYSTEM_PROMPT :: t) = INITIAL_SYSTEM_PROMPT :: t := by
  simp [save_inmem, INITIAL_SYSTEM_PROMPT]

theorem save_inmem_head (l : List Message)
    (h : l.head? = some INITIAL_SYSTEM_PROMPT) :
    (save_inmem l).head? = some INITIAL_SYSTEM_PROMPT := by
  obtain ⟨t, rfl⟩ := head_shape h
  rw [save_inmem_init]
  rfl

theorem append_head (l l' : List Message)
    (h : l.head? = some INITIAL_SYSTEM_PROMPT) :
    (l ++ l').head? = some INITIAL_SYSTEM_PROMPT := by
  rw [List.head?_append, h]
  rfl

theorem enforceRetention_head (m : Message) (t : List Message) :
    (enforceRetention (m :: t)).head? = some m := by
  unfold enforceRetention
  split
  · simp
  · rfl

theorem enforceRetention_head' (l : List Message)
    (h : l.head? = some INITIAL_SYSTEM_PROMPT) :
    (enforceRetention l).head? = some INITIAL_SYSTEM_PROMPT := by
  obtain ⟨t, rfl⟩ := head_shape h
  exact enforceRetention_head _ _

theorem enforceRetention_getLast (l : List Message) (a : Message) :
    (enforceRetention (l ++ [a])).getLast? = some a := by
  unfold enforceRetention
  split
  · rw [List.drop_append_of_le_length
      (by have hm : max_history = 20 := rfl; simp [hm])]
    simp [List.getLast?_append]
  · exact List.getLast?_concat l

theorem enforceRetention_length_ge_two (l : List Message) (h : 2 ≤ l.length) :
    2 ≤ (enforceRetention l).length := by
  unfold enforceRetention
  split
  · next htr =>
    have hm : max_history = 20 := rfl
    rw [hm] at htr
    simp
    omega
  · exact h

theorem save_inmem_getLast (l : List Message) (h : 2 ≤ l.length) :
    (save_inmem l).getLast? = l.getLast? := by
  match l with
  | [] => simp at h
  | [m] => simp at h
  | m :: m2 :: t =>
    show (if m.role ≠ "system" then m :: m2 :: t
          else if m ≠ INITIAL_SYSTEM_PROMPT then INITIAL_SYSTEM_PROMPT :: m2 :: t
          else m :: m2 :: t).getLast? = (m :: m2 :: t).getLast?
    split
    · rfl
    · split
      · rw [List.getLast?_cons_cons, List.getLast?_cons_cons]
      · rfl

theorem findSub_some_of_prefix (p s : List Char) (h : p.isPrefixOf s = true) :
    (findSub p s).isSome = true := by
  cases s <;> simp [findSub, h]

theorem findSub_self_append (p y : List Char) :
    (findSub p (p ++ y)).isSome = true :=
  findSub_some_of_prefix p (p ++ y) (List.isPrefixOf_iff_prefix.mpr (List.prefix_append p y))

theorem findSub_append_left (p x t : List Char) (h : (findSub p t).isSome = true) :
    (findSub p (x ++ t)).isSome = true := by
  induction x with
  | nil => exact h
  | cons c x' ih =>
    show (findSub p (c :: (x' ++ t))).isSome = true
    unfold findSub
    split
    · rfl
    · simp [ih]

theorem findSub_append_right (p x t : List Char) (h : (findSub p x).isSome = true) :
    (findSub p (x ++ t)).isSome = true := by
  induction x with
  | nil =>
    have hp : p.isPrefixOf ([] : List Char) = true := by
      by_contra hc
      simp [findSub, hc] at h
    have : p = [] := by
      have := List.isPrefixOf_iff_prefix.mp hp
      simpa using this
    subst this
    exact findSub_self_append [] t
  | cons c x' ih =>
    show (findSub p (c :: (x' ++ t))).isSome = true
    unfold findSub
    split
    · rfl
    · next hnp =>
      have hx : (findSub p x').isSome = true := by
        unfold findSub at h
        split at h
        · next hpre =>
          exfalso
          exact hnp (List.isPrefixOf_iff_prefix.mpr
            ((List.isPrefixOf_iff_prefix.mp hpre).trans (List.prefix_append (c :: x') t)))
        · simpa using h
      simp [ih hx]

theorem findSub_self (p : List Char) : (findSub p p).isSome = true := by
  have := findSub_self_append p []
  simpa using this

theorem contains_self (p : String) : containsSubStr p p = true :=
  findSub_self p.toList

theorem toList_append (a b : String) : (a ++ b).toList = a.toList ++ b.toList := by
  show (a ++ b).data = a.data ++ b.data
  exact String.data_append a b

theorem contains_append_left (x y p : String) (h : containsSubStr y p = true) :
    containsSubStr (x ++ y) p = true := by
  unfold containsSubStr at h ⊢
  rw [toList_append]
  exact findSub_append_left _ _ _ h

theorem contains_append_right (x y p : String) (h : containsSubStr x p = true) :
    containsSubStr (x ++ y) p = true := by
  unfold containsSubStr at h ⊢
  rw [toList_append]
  exact findSub_append_right _ _ _ h

theorem removeSubAux_id (pat : List Char) (fuel : Nat) (s : List Char)
    (h : (findSub pat s).isSome = false) : removeSubAux pat fuel s = s := by
  induction fuel generalizing s with
  | zero => rfl
  | succ fuel ih =>
    cases s with
    | nil => rfl
    | cons c t =>
      have hnp : ¬ pat.isPrefixOf (c :: t) = true := by
        intro hp
        simp [findSub, hp] at h
      have ht : (findSub pat t).isSome = false := by
        unfold findSub at h
        rw [if_neg hnp] at h
        simpa using h
      show (if 0 < pat.length ∧ pat.isPrefixOf (c :: t) = true then
              removeSubAux pat fuel (t.drop (pat.length - 1))
            else c :: removeSubAux pat fuel t) = c :: t
      rw [if_neg (by intro hc; exact hnp hc.2)]
      rw [ih t ht]

theorem removeSub_id (pat s : List Char) (h : (findSub pat s).isSome = false) :
    removeSub pat s = s :=
  removeSubAux_id pat s.length s h

theorem chat_head (completion : Except Unit (List String)) (msg uname : String)
    (rc ra : Option String) (s : BotState)
    (hs : s.history.head? = some INITIAL_SYSTEM_PROMPT) :
    ((chat_with_history completion msg uname rc ra s).state).history.head?
      = some INITIAL_SYSTEM_PROMPT := by
  unfold chat_with_history
  split
  · exact hs
  · have hh2 : ((ensureSystemPrompt s.history
        ++ [⟨"user", frame msg uname rc ra⟩]) : List Message).head?
        = some INITIAL_SYSTEM_PROMPT :=
      append_head _ _ (ensureSystemPrompt_head s.history)
    cases completion with
    | error e => exact hh2
    | ok cs =>
      cases cs with
      | nil => exact hh2
      | cons c0 rest =>
        exact save_inmem_head _ (enforceRetention_head' _ (append_head _ _ hh2))

theorem applyOp_head (s : BotState) (op : Op)
    (hs : s.history.head? = some INITIAL_SYSTEM_PROMPT) :
    ((applyOp s op).history).head? = some INITIAL_SYSTEM_PROMPT := by
  cases op with
  | reload =>
    cases hp : s.persisted with
    | none => simp [applyOp, loadMem, hp]
    | some l => simp [applyOp, loadMem, hp, ensureSystemPrompt_head]
  | save =>
    obtain ⟨t, ht⟩ := head_shape hs
    show (save_inmem s.history).head? = some INITIAL_SYSTEM_PROMPT
    rw [ht, save_inmem_init]
    rfl
  | chat completion msg uname rc ra => exact chat_head completion msg uname rc ra s hs

theorem runOps_head (ops : List Op) : ∀ s : BotState,
    s.history.head? = some INITIAL_SYSTEM_PROMPT →
    ((runOps s ops).history).head? = some INITIAL_SYSTEM_PROMPT := by
  induction ops with
  | nil => intro s hs; exact hs
  | cons op rest ih => intro s hs; exact ih _ (applyOp_head s op hs)

/-! ## Claim theorems -/

/-- C1: for every startup storage state and every sequence of load, save and
chat (append) operations, the first transcript entry is exactly the current
directive message, whose role is system — each operation re-normalizes index 0,
inserting the directive if missing and replacing it if stale. -/
theorem directive_invariant (p : Option (List Message)) (ops : List Op) :
    ((runOps (startup p) ops).history).head? = some INITIAL_SYSTEM_PROMPT
    ∧ INITIAL_SYSTEM_PROMPT.role = "system" := by
  refine ⟨runOps_head ops (startup p) ?_, rfl⟩
  cases p with
  | none => rfl
  | some l => exact ensureSystemPrompt_head l

/-- C2: appending more than `max_history` conversational messages after the
directive makes retention fire: the result is exactly the directive followed by
the most recent `max_history` conversational messages in original order, for a
total of `max_history + 1` entries; and retention leaves any transcript of at
most `max_history + 1` entries untouched. -/
theorem retention_bound (msgs : List Message) (hN : max_history < msgs.length) :
    enforceRetention (INITIAL_SYSTEM_PROMPT :: msgs)
        = INITIAL_SYSTEM_PROMPT :: msgs.drop (msgs.length - max_history)
    ∧ (enforceRetention (INITIAL_SYSTEM_PROMPT :: msgs)).length = max_history + 1
    ∧ (msgs.drop (msgs.length - max_history)).length = max_history
    ∧ (∀ t : List Message, t.length ≤ max_history + 1 → enforceRetention t = t) := by
  have hm : max_history = 20 := rfl
  have h1 : enforceRetention (INITIAL_SYSTEM_PROMPT :: msgs)
      = INITIAL_SYSTEM_PROMPT :: msgs.drop (msgs.length - max_history) := by
    unfold enforceRetention
    rw [if_pos (by simp [hm] at hN ⊢; omega)]
    have hsub : (INITIAL_SYSTEM_PROMPT :: msgs).length - max_history
        = (msgs.length - max_history) + 1 := by
      simp [hm] at hN ⊢
      omega
    rw [hsub]
    simp
  have hlen : (msgs.drop (msgs.length - max_history)).length = max_history := by
    rw [List.length_drop]
    rw [hm] at hN ⊢
    omega
  refine ⟨h1, ?_, hlen, ?_⟩
  · rw [h1]
    simp [hlen]
  · intro t ht
    unfold enforceRetention
    rw [if_neg (by omega)]

/-- Witness for C2 at a transcript of 21 appended conversational turns. -/
theorem retention_bound_witness :
    max_history < (List.replicate 21 (⟨"user", "m"⟩ : Message)).length
    ∧ (enforceRetention (INITIAL_SYSTEM_PROMPT :: List.replicate 21 (⟨"user", "m"⟩ : Message))
          = INITIAL_SYSTEM_PROMPT :: (List.replicate 21 (⟨"user", "m"⟩ : Message)).drop
              ((List.replicate 21 (⟨"user", "m"⟩ : Message)).length - max_history)
        ∧ (enforceRetention (INITIAL_SYSTEM_PROMPT :: List.replicate 21 (⟨"user", "m"⟩ : Message))).length
            = max_history + 1
        ∧ ((List.replicate 21 (⟨"user", "m"⟩ : Message)).drop
              ((List.replicate 21 (⟨"user", "m"⟩ : Message)).length - max_history)).length = max_history
        ∧ (∀ t : List Message, t.length ≤ max_history + 1 → enforceRetention t = t)) :=
  ⟨by decide, retention_bound (List.replicate 21 ⟨"user", "m"⟩) (by decide)⟩

/-- C3: when the completion API returns zero candidates, the caller of
`get_response` receives the fixed failure notice
`"Invalid input: No response generated"`, the user-turn message appended
before the invocation stays in the transcript (the new history is exactly the
normalized old history plus that single user-role message, so no
assistant-role message is appended), the API was invoked, and save was not. -/
theorem empty_completion_failure (msg uname : String) (rc ra : Option String)
    (s : BotState) (hmsg : ¬ pyStrip msg = "") :
    get_response (.ok []) msg uname rc ra s
      = ⟨"Invalid input: No response generated",
         ⟨ensureSystemPrompt s.history ++ [⟨"user", frame msg uname rc ra⟩], s.persisted⟩,
         false, true⟩ := by
  unfold get_response chat_with_history
  rw [if_neg hmsg, if_neg hmsg]

/-- Witness for C3 on a concrete non-empty utterance and state. -/
theorem empty_completion_failure_witness :
    ¬ pyStrip "hi" = ""
    ∧ get_response (.ok []) "hi" "Al" none none ⟨[], none⟩
        = ⟨"Invalid input: No response generated",
           ⟨ensureSystemPrompt [] ++ [⟨"user", frame "hi" "Al" none none⟩], none⟩,
           false, true⟩ :=
  ⟨by decide, empty_completion_failure "hi" "Al" none none ⟨[], none⟩ (by decide)⟩

/-- C4: an utterance that strips to the empty string makes `get_response`
return the fixed notice `"Empty input."` without touching the state, without
calling the completion boundary and without saving. -/
theorem empty_input_short_circuit (completion : Except Unit (List String))
    (input uname : String) (rc ra : Option String) (s : BotState)
    (h : pyStrip input = "") :
    get_response completion input uname rc ra s = ⟨"Empty input.", s, false, false⟩ := by
  unfold get_response
  rw [if_pos h]

/-- Witness for C4 on the whitespace utterance from the spec. -/
theorem empty_input_short_circuit_witness :
    pyStrip "   " = ""
    ∧ get_response (.ok ["ignored"]) "   " "Al" none none ⟨[INITIAL_SYSTEM_PROMPT], none⟩
        = ⟨"Empty input.", ⟨[INITIAL_SYSTEM_PROMPT], none⟩, false, false⟩ :=
  ⟨by decide, empty_input_short_circuit (.ok ["ignored"]) "   " "Al" none none
      ⟨[INITIAL_SYSTEM_PROMPT], none⟩ (by decide)⟩

/-- C5 counterexample: both reply fields are present (`some _`), yet because
the code tests Python truthiness rather than presence, an empty replied-to
author makes the framing fall back to the plain speaker tag, which does not
contain the replied-to content `"Hello"`. -/
theorem reply_framing_counterexample :
    frame "hi" "Alice" (some "Hello") (some "") = "Alice>hi"
    ∧ containsSubStr (frame "hi" "Alice" (some "Hello") (some "")) "Hello" = false := by
  constructor
  · rfl
  · decide

/-- C5 (amended): when both reply fields are present AND non-empty, the framed
content is the single reply-frame string, which contains the username, the
replied-to author, the replied-to content and the new message verbatim; when
both reply fields are absent the framed content is exactly
`username ++ ">" ++ user_message`. -/
theorem reply_framing (msg uname c a : String) (hc : c ≠ "") (ha : a ≠ "") :
    frame msg uname (some c) (some a)
        = "The user \x27" ++ uname ++ "\x27 replied to a message by \x27" ++ a
          ++ "\x27.\n" ++ "Original message: \x27" ++ c ++ "\x27\n"
          ++ "User\x27s reply: \x27" ++ msg ++ "\x27"
    ∧ containsSubStr (frame msg uname (some c) (some a)) uname = true
    ∧ containsSubStr (frame msg uname (some c) (some a)) a = true
    ∧ containsSubStr (frame msg uname (some c) (some a)) c = true
    ∧ containsSubStr (frame msg uname (some c) (some a)) msg = true
    ∧ frame msg uname none none = uname ++ ">" ++ msg := by
  have hfr : frame msg uname (some c) (some a)
      = "The user \x27" ++ uname ++ "\x27 replied to a message by \x27" ++ a
        ++ "\x27.\n" ++ "Original message: \x27" ++ c ++ "\x27\n"
        ++ "User\x27s reply: \x27" ++ msg ++ "\x27" := by
    unfold frame
    rw [if_pos (by simp [optTruthy, hc, ha])]
    rfl
  refine ⟨hfr, ?_, ?_, ?_, ?_, rfl⟩ <;> rw [hfr] <;>
    repeat
      first
        | exact contains_append_left _ _ _ (contains_self _)
        | apply contains_append_right

/-- Witness for C5 at the spec scenario (Alice replies hi to a Hello by Bob). -/
theorem reply_framing_witness :
    ("Hello" : String) ≠ ""
    ∧ ("Bob" : String) ≠ ""
    ∧ (frame "hi" "Alice" (some "Hello") (some "Bob")
          = "The user \x27" ++ "Alice" ++ "\x27 replied to a message by \x27" ++ "Bob"
            ++ "\x27.\n" ++ "Original message: \x27" ++ "Hello" ++ "\x27\n"
            ++ "User\x27s reply: \x27" ++ "hi" ++ "\x27"
        ∧ containsSubStr (frame "hi" "Alice" (some "Hello") (some "Bob")) "Alice" = true
        ∧ containsSubStr (frame "hi" "Alice" (some "Hello") (some "Bob")) "Bob" = true
        ∧ containsSubStr (frame "hi" "Alice" (some "Hello") (some "Bob")) "Hello" = true
        ∧ containsSubStr (frame "hi" "Alice" (some "Hello") (some "Bob")) "hi" = true
        ∧ frame "hi" "Alice" none none = "Alice" ++ ">" ++ "hi") :=
  ⟨by decide, by decide, reply_framing "hi" "Alice" "Hello" "Bob" (by decide) (by decide)⟩

theorem ensureSystemPrompt_init_cons (t : List Message) :
    ensureSystemPrompt (INITIAL_SYSTEM_PROMPT :: t) = INITIAL_SYSTEM_PROMPT :: t := by
  simp [ensureSystemPrompt, INITIAL_SYSTEM_PROMPT]

theorem enforceRetention_no_trigger (l : List Message) (h : l.length ≤ max_history + 1) :
    enforceRetention l = l := by
  unfold enforceRetention
  rw [if_neg (by omega)]

theorem chat_success (c0 : String) (rest : List String) (msg uname : String)
    (rc ra : Option String) (s : BotState) (hmsg : ¬ pyStrip msg = "") :
    chat_with_history (.ok (c0 :: rest)) msg uname rc ra s
      = ⟨.ok (clean_response (extract_response_content c0)),
         ⟨(save_history (enforceRetention ((ensureSystemPrompt s.history
             ++ [⟨"user", frame msg uname rc ra⟩])
             ++ [⟨"assistant", clean_response (extract_response_content c0)⟩]))).1,
          some (save_history (enforceRetention ((ensureSystemPrompt s.history
             ++ [⟨"user", frame msg uname rc ra⟩])
             ++ [⟨"assistant", clean_response (extract_response_content c0)⟩]))).2⟩,
         true, true⟩ := by
  unfold chat_with_history
  rw [if_neg hmsg]

/-- C6: from a directive-only transcript, `get_response` on
`"Tell me a story"` from `"Sam"` with a stubbed completion returning
`"<think>plan</think>Once upon a time."` replies with the cleaned text
`"Once upon a time."` and leaves exactly the three expected entries. -/
theorem end_to_end_scenario :
    (get_response (.ok ["<think>plan</think>Once upon a time."]) "Tell me a story" "Sam"
        none none ⟨[INITIAL_SYSTEM_PROMPT], none⟩).reply = "Once upon a time."
    ∧ (get_response (.ok ["<think>plan</think>Once upon a time."]) "Tell me a story" "Sam"
        none none ⟨[INITIAL_SYSTEM_PROMPT], none⟩).state.history
        = [INITIAL_SYSTEM_PROMPT, ⟨"user", "Sam>Tell me a story"⟩,
           ⟨"assistant", "Once upon a time."⟩] := by
  have hmsg : ¬ pyStrip "Tell me a story" = "" := by decide
  have hclean : clean_response (extract_response_content "<think>plan</think>Once upon a time.")
      = "Once upon a time." := by decide
  have hframe : frame "Tell me a story" "Sam" none none = "Sam>Tell me a story" := by decide
  have key : chat_with_history (.ok ["<think>plan</think>Once upon a time."])
      "Tell me a story" "Sam" none none ⟨[INITIAL_SYSTEM_PROMPT], none⟩
      = ⟨.ok "Once upon a time.",
         ⟨[INITIAL_SYSTEM_PROMPT, ⟨"user", "Sam>Tell me a story"⟩,
           ⟨"assistant", "Once upon a time."⟩],
          some [INITIAL_SYSTEM_PROMPT, ⟨"user", "Sam>Tell me a story"⟩,
           ⟨"assistant", "Once upon a time."⟩]⟩,
         true, true⟩ := by
    rw [chat_success _ _ _ _ _ _ _ hmsg, hclean, hframe]
    rw [show ((ensureSystemPrompt [INITIAL_SYSTEM_PROMPT]
        ++ [(⟨"user", "Sam>Tell me a story"⟩ : Message)])
        ++ [(⟨"assistant", "Once upon a time."⟩ : Message)])
      = [INITIAL_SYSTEM_PROMPT, ⟨"user", "Sam>Tell me a story"⟩,
         ⟨"assistant", "Once upon a time."⟩]
      from by rw [ensureSystemPrompt_init_cons]; rfl]
    rw [enforceRetention_no_trigger _ (by have hm : max_history = 20 := rfl; simp [hm])]
    rw [show save_history [INITIAL_SYSTEM_PROMPT, ⟨"user", "Sam>Tell me a story"⟩,
         ⟨"assistant", "Once upon a time."⟩]
      = ([INITIAL_SYSTEM_PROMPT, ⟨"user", "Sam>Tell me a story"⟩,
          ⟨"assistant", "Once upon a time."⟩],
         [INITIAL_SYSTEM_PROMPT, ⟨"user", "Sam>Tell me a story"⟩,
          ⟨"assistant", "Once upon a time."⟩])
      from by
        unfold save_history
        rw [save_inmem_init, ensureSystemPrompt_init_cons]]
  have hget : get_response (.ok ["<think>plan</think>Once upon a time."]) "Tell me a story" "Sam"
      none none ⟨[INITIAL_SYSTEM_PROMPT], none⟩
      = ⟨"Once upon a time.",
         ⟨[INITIAL_SYSTEM_PROMPT, ⟨"user", "Sam>Tell me a story"⟩,
           ⟨"assistant", "Once upon a time."⟩],
          some [INITIAL_SYSTEM_PROMPT, ⟨"user", "Sam>Tell me a story"⟩,
           ⟨"assistant", "Once upon a time."⟩]⟩,
         true, true⟩ := by
    unfold get_response
    rw [if_neg hmsg, key]
  rw [hget]
  exact ⟨rfl, rfl⟩

/-- C7 counterexample: a durable-storage file whose contents parse as the JSON
value `0` (valid JSON, so `json.JSONDecodeError` is not raised) makes
`load_history` raise an uncaught `TypeError` at
`[INITIAL_SYSTEM_PROMPT] + history` — so load can fail the caller. -/
theorem load_tolerance_counterexample :
    load_history (.parsed (.num 0)) = .error .typeError := rfl

/-- C7 (amended): when the storage file is absent, unreadable, or its contents
fail to parse as JSON, `load_history` returns the fresh transcript holding only
the current directive without raising; contents that parse to a non-list JSON
value can instead raise an uncaught exception. -/
theorem load_tolerance :
    load_history .absent = .ok [initJson]
    ∧ load_history .unparseable = .ok [initJson] :=
  ⟨rfl, rfl⟩

theorem ensureSystemPrompt_cons (l : List Message) :
    ∃ t, ensureSystemPrompt l = INITIAL_SYSTEM_PROMPT :: t :=
  head_shape (ensureSystemPrompt_head l)

/-- C8: loading the artifact that `save_history` wrote back from storage
succeeds and yields exactly the saved transcript (the directive normalization
both operations apply at index 0 is already a fixed point on it). -/
theorem persistence_round_trip (h : List Message) :
    load_history (.parsed (.arr ((save_history h).2.map encodeMsg)))
      = .ok ((save_history h).2.map encodeMsg) := by
  obtain ⟨t, ht⟩ := ensureSystemPrompt_cons h
  show pyNormalizeLoad (.arr ((ensureSystemPrompt h).map encodeMsg))
      = .ok ((ensureSystemPrompt h).map encodeMsg)
  rw [ht]
  simp [pyNormalizeLoad, jsonTruthy, pyIndex0, pyGetRole, isSystemRole,
    replaceHead0, jsonEqInit, encodeMsg, INITIAL_SYSTEM_PROMPT, List.lookup]

/-- C9 counterexample: `"a<think>b"` contains no complete sentinel-delimited
reasoning segment (the closing tag never occurs), yet the strip pipeline does
not return it unchanged-up-to-trimming: `clean_response` deletes the lone
opening-tag fragment, producing `"ab"`. -/
theorem strip_idempotence_counterexample :
    containsSubStr "a<think>b" "</think>" = false
    ∧ clean_response (extract_response_content "a<think>b") = "ab"
    ∧ pyStrip "a<think>b" = "a<think>b"
    ∧ clean_response (extract_response_content "a<think>b") ≠ pyStrip "a<think>b" :=
  ⟨by decide, by decide, by decide, by decide⟩

/-- C9 (amended): on text containing no occurrence of either sentinel tag
(rather than merely no complete delimited segment), the strip pipeline
returns the text unchanged except for trimming surrounding whitespace. -/
theorem strip_idempotence (s : String)
    (h1 : containsSubStr s "<think>" = false)
    (h2 : containsSubStr s "</think>" = false) :
    clean_response (extract_response_content s) = pyStrip s := by
  have h1' : (findSub openTag s.toList).isSome = false := h1
  have h2' : (findSub closeTag s.toList).isSome = false := h2
  have ho : findSub openTag s.toList = none := by
    cases hfo : findSub openTag s.toList with
    | none => rfl
    | some i => rw [hfo] at h1'; simp at h1'
  have hc : findSub closeTag s.toList = none := by
    cases hfc : findSub closeTag s.toList with
    | none => rfl
    | some i => rw [hfc] at h2'; simp at h2'
  have hext : extract_response_content s = s := by
    unfold extract_response_content
    rw [ho, hc]
  rw [hext]
  unfold clean_response pyStrip
  rw [removeSub_id openTag s.toList h1', removeSub_id closeTag _ h2']

/-- Witness for C9 on a tag-free text with trailing whitespace. -/
theorem strip_idempotence_witness :
    containsSubStr "hello " "<think>" = false
    ∧ containsSubStr "hello " "</think>" = false
    ∧ clean_response (extract_response_content "hello ") = pyStrip "hello " :=
  ⟨by decide, by decide, strip_idempotence "hello " (by decide) (by decide)⟩

/-- C10: `save_history` is invoked by `chat_with_history` only when the call
succeeds, in which case the assistant reply it returned is the last transcript
entry; whenever the call raises (empty input, zero candidates, or an upstream
exception), save was not invoked and the persisted storage is exactly what it
was before the call. -/
theorem save_only_after_success (completion : Except Unit (List String))
    (msg uname : String) (rc ra : Option String) (s : BotState) :
    ((chat_with_history completion msg uname rc ra s).savedCalled = true →
        ∃ c, (chat_with_history completion msg uname rc ra s).result = .ok c
          ∧ ((chat_with_history completion msg uname rc ra s).state).history.getLast?
              = some ⟨"assistant", c⟩)
    ∧ (∀ e : ChatErr, (chat_with_history completion msg uname rc ra s).result = .error e →
        (chat_with_history completion msg uname rc ra s).savedCalled = false
        ∧ ((chat_with_history completion msg uname rc ra s).state).persisted
            = s.persisted) := by
  by_cases hmsg : pyStrip msg = ""
  · have hout : chat_with_history completion msg uname rc ra s
        = ⟨.error .emptyMessage, s, false, false⟩ := by
      unfold chat_with_history
      rw [if_pos hmsg]
    rw [hout]
    exact ⟨fun hf => by simp at hf, fun e he => ⟨rfl, rfl⟩⟩
  · cases completion with
    | error u =>
      have hout : chat_with_history (.error u) msg uname rc ra s
          = ⟨.error .upstream,
             ⟨ensureSystemPrompt s.history ++ [⟨"user", frame msg uname rc ra⟩],
              s.persisted⟩, false, true⟩ := by
        unfold chat_with_history
        rw [if_neg hmsg]
      rw [hout]
      exact ⟨fun hf => by simp at hf, fun e he => ⟨rfl, rfl⟩⟩
    | ok cs =>
      cases cs with
      | nil =>
        have hout : chat_with_history (.ok []) msg uname rc ra s
            = ⟨.error .noResponse,
               ⟨ensureSystemPrompt s.history ++ [⟨"user", frame msg uname rc ra⟩],
                s.persisted⟩, false, true⟩ := by
          unfold chat_with_history
          rw [if_neg hmsg]
        rw [hout]
        exact ⟨fun hf => by simp at hf, fun e he => ⟨rfl, rfl⟩⟩
      | cons c0 rest =>
        rw [chat_success c0 rest msg uname rc ra s hmsg]
        constructor
        · intro _
          refine ⟨clean_response (extract_response_content c0), rfl, ?_⟩
          show (save_inmem (enforceRetention ((ensureSystemPrompt s.history
              ++ [⟨"user", frame msg uname rc ra⟩])
              ++ [⟨"assistant", clean_response (extract_response_content c0)⟩]))).getLast?
            = some ⟨"assistant", clean_response (extract_response_content c0)⟩
          rw [save_inmem_getLast _ (enforceRetention_length_ge_two _ (by simp))]
          exact enforceRetention_getLast _ _
        · intro e he
          exact Except.noConfusion he

/-- Witness for C10: with zero candidates, save is not invoked and the
persisted storage is unchanged. -/
theorem save_only_after_success_witness :
    (chat_with_history (.ok []) "hi" "Al" none none ⟨[INITIAL_SYSTEM_PROMPT], none⟩).savedCalled
        = false
    ∧ (chat_with_history (.ok []) "hi" "Al" none none
        ⟨[INITIAL_SYSTEM_PROMPT], none⟩).state.persisted = none :=
  (save_only_after_success (.ok []) "hi" "Al" none none ⟨[INITIAL_SYSTEM_PROMPT], none⟩).2
    ChatErr.noResponse (by rfl)

/-- Witness for C1 on a concrete startup state and operation sequence. -/
theorem directive_invariant_witness :
    ((runOps (startup none) [Op.save]).history).head? = some INITIAL_SYSTEM_PROMPT
    ∧ INITIAL_SYSTEM_PROMPT.role = "system" :=
  directive_invariant none [Op.save]

/-- Witness for C8 on the empty in-memory transcript. -/
theorem persistence_round_trip_witness :
    load_history (.parsed (.arr ((save_history []).2.map encodeMsg)))
      = .ok ((save_history []).2.map encodeMsg) :=
  persistence_round_trip []
